import Mathlib

set_option maxRecDepth 8000

/-!
# Verification of the Strava progress tracker backend (backend/main.go)

Shallow embedding of the activity ingestion, token lifecycle and aggregation
pipeline of the Go backend.  Go float64 values are modelled as rationals
(the claims under study depend on guarded divisions and sums, not on binary
rounding), machine integers as `Int`/`Nat`, JSON-decoded dynamic values as an
explicit `JsonVal` type, and the network as explicit outcome parameters.
All file accesses are modelled by passing the (already JSON-decoded) file
contents explicitly; the token file and in-memory token mirror are combined
in a `ServerState`.
-/

namespace Strava

attribute [local semireducible] Rat.add Rat.mul Rat.inv Rat.sub

/-- A JSON value as decoded by `encoding/json` into `interface{}`, restricted
to the shapes the backend inspects: numbers (Go gives `float64`), strings,
and anything else (`other` covers booleans, null, arrays, objects). -/
inductive JsonVal where
  | num (q : ℚ)
  | str (s : String)
  | other
  deriving DecidableEq, Repr

/-- One element of the raw activity array stored in the cache file
(`[]map[string]interface{}` in the Go source); only the four keys the
backend reads are modelled, `none` meaning the key is absent. -/
structure RawActivity where
  distance : Option JsonVal
  moving_time : Option JsonVal
  start_date : Option JsonVal
  type : Option JsonVal
  deriving DecidableEq, Repr

/-- `MinimalActivityData` from main.go. -/
structure MinimalActivityData where
  startDate : String
  distance : ℚ
  movingTime : ℚ
  type : String
  deriving DecidableEq, Repr

/-- `StravaActivity` from main.go (fields the weekly handler uses). -/
structure StravaActivity where
  id : Int
  name : String
  distance : ℚ
  movingTime : ℚ
  elapsedTime : ℚ
  type : String
  startDate : String
  startDateLocal : String
  deriving DecidableEq, Repr

/-- `MonthlySportStats` from main.go. -/
structure MonthlySportStats where
  monthYear : String
  runWalkHike : ℚ
  bike : ℚ
  other : ℚ
  deriving DecidableEq, Repr

/-- `MonthlyPaceStats` from main.go: per-month accumulated time/distance per
category plus the derived paces (seconds per meter). -/
structure MonthlyPaceStats where
  monthYear : String
  runWalkHikeTime : ℚ
  runWalkHikeDistance : ℚ
  bikeTime : ℚ
  bikeDistance : ℚ
  otherTime : ℚ
  otherDistance : ℚ
  runWalkHikePace : ℚ
  bikePace : ℚ
  otherPace : ℚ
  deriving DecidableEq, Repr

/-- `PaceStat` from main.go: distance (km) per heart-effort zone. -/
structure PaceStat where
  red : ℚ
  orange : ℚ
  yellow : ℚ
  green : ℚ
  deriving DecidableEq, Repr

/-- The Go zero value of `PaceStat`. -/
def PaceStat.zero : PaceStat := ⟨0, 0, 0, 0⟩

/-- `TokenData` from main.go (also the decoded token file contents). -/
structure TokenData where
  accessToken : String
  refreshToken : String
  expiresAt : Int
  deriving DecidableEq, Repr

/-- `StravaTokenResponse` from main.go. -/
structure StravaTokenResponse where
  accessToken : String
  refreshToken : String
  expiresAt : Int
  deriving DecidableEq, Repr

/-- The token-bearing server state: the in-memory mirror `currentTokens`
and the persisted token file (`none` = file absent). -/
structure ServerState where
  mem : TokenData
  file : Option TokenData
  deriving DecidableEq, Repr

/-! ## Timestamp parsing

`time.Parse(time.RFC3339, s)` and `t.Format(...)`.  The model covers the
`YYYY-MM-DDThh:mm:ssZ` profile of RFC3339 (the form Strava emits); strings
outside this profile are treated as unparseable. -/

/-- A parsed calendar timestamp (UTC). -/
structure DateTime where
  year : ℕ
  month : ℕ
  day : ℕ
  hour : ℕ
  minute : ℕ
  second : ℕ
  deriving DecidableEq, Repr

/-- Numeric value of a decimal digit character. -/
def digitVal (c : Char) : ℕ := c.toNat - 48

/-- Gregorian leap-year rule. -/
def isLeapYear (y : ℕ) : Bool := y % 4 = 0 && (y % 100 ≠ 0 || y % 400 = 0)

/-- Days in a month, as validated by Go's `time.Parse`. -/
def daysInMonth (y mo : ℕ) : ℕ :=
  if mo = 2 then (if isLeapYear y then 29 else 28)
  else if mo = 4 ∨ mo = 6 ∨ mo = 9 ∨ mo = 11 then 30
  else 31

/-- Model of `time.Parse(time.RFC3339, s)`: parses `YYYY-MM-DDThh:mm:ssZ`
with full range validation, `none` on any malformed input. -/
def parseRFC3339 (s : String) : Option DateTime :=
  match s.data with
  | [y1, y2, y3, y4, c1, m1, m2, c2, d1, d2, ct, h1, h2, c3, i1, i2, c4, s1, s2, cz] =>
    if c1 = '-' ∧ c2 = '-' ∧ ct = 'T' ∧ c3 = ':' ∧ c4 = ':' ∧ cz = 'Z' ∧
        ([y1, y2, y3, y4, m1, m2, d1, d2, h1, h2, i1, i2, s1, s2].all Char.isDigit) then
      let y := digitVal y1 * 1000 + digitVal y2 * 100 + digitVal y3 * 10 + digitVal y4
      let mo := digitVal m1 * 10 + digitVal m2
      let dd := digitVal d1 * 10 + digitVal d2
      let hh := digitVal h1 * 10 + digitVal h2
      let mi := digitVal i1 * 10 + digitVal i2
      let ss := digitVal s1 * 10 + digitVal s2
      if 1 ≤ mo ∧ mo ≤ 12 ∧ 1 ≤ dd ∧ dd ≤ daysInMonth y mo ∧ hh ≤ 23 ∧ mi ≤ 59 ∧ ss ≤ 59 then
        some ⟨y, mo, dd, hh, mi, ss⟩
      else none
    else none
  | _ => none

/-- Left-pad a decimal string with zeros. -/
def padZeros (s : String) (n : ℕ) : String :=
  String.mk (List.replicate (n - s.length) '0') ++ s

/-- Model of `t.Format("2006-01")`: the `YYYY-MM` month key. -/
def monthKey (dt : DateTime) : String :=
  padZeros (toString dt.year) 4 ++ "-" ++ padZeros (toString dt.month) 2

/-- Days since the Unix epoch of a civil date (standard civil-from-days
inverse); models `t.Truncate(24 * time.Hour)` on a UTC timestamp, with a
day identified by its number. -/
def daysFromCivil (y mo d : Int) : Int :=
  let y' := if mo ≤ 2 then y - 1 else y
  let era := y' / 400
  let yoe := y' - era * 400
  let mp := (mo + 9) % 12
  let doy := (153 * mp + 2) / 5 + d - 1
  let doe := yoe * 365 + yoe / 4 - yoe / 100 + doy
  era * 146097 + doe - 719468

/-- The calendar day (as a day number) of a parsed timestamp. -/
def dayNumber (dt : DateTime) : Int :=
  daysFromCivil dt.year dt.month dt.day

/-! ## Go maps as association lists

A Go `map` is modelled as an association list; `mapGet` is indexing
(returning the provided zero value on a missing key, as Go does) and
`mapSet` is assignment (replace the first binding, or append). -/

variable {κ α : Type} [DecidableEq κ]

/-- `m[k]`, with `d` the Go zero value of the element type. -/
def mapGet (m : List (κ × α)) (k : κ) (d : α) : α :=
  match m with
  | [] => d
  | (k', v) :: rest => if k' = k then v else mapGet rest k d

/-- `m[k] = v`. -/
def mapSet (m : List (κ × α)) (k : κ) (v : α) : List (κ × α) :=
  match m with
  | [] => [(k, v)]
  | (k', v') :: rest => if k' = k then (k, v) :: rest else (k', v') :: mapSet rest k v

/-! ## Pure helpers from main.go -/

/-- `getFloat` from main.go: numeric JSON values (which `encoding/json`
decodes as `float64`) convert; everything else (including a missing key,
i.e. a nil interface) yields `(0, false)`. -/
def getFloat (v : Option JsonVal) : ℚ × Bool :=
  match v with
  | some (JsonVal.num q) => (q, true)
  | _ => (0, false)

/-- The Go type assertion `v.(string)`. -/
def getString (v : Option JsonVal) : String × Bool :=
  match v with
  | some (JsonVal.str s) => (s, true)
  | _ => ("", false)

/-- `classifyActivity` from main.go (latest variant, including `TrailRun`
and `Handcycle`). -/
def classifyActivity (activityType : String) : String :=
  match activityType with
  | "Run" | "Walk" | "Hike" | "TrailRun" => "RunWalkHike"
  | "Ride" | "VirtualRide" | "Handcycle" => "Bike"
  | _ => "Other"

/-- `getPaceZone` from main.go: bands an average speed (m/s) into a zone. -/
def getPaceZone (speed : ℚ) : String :=
  if speed ≥ 48/10 then "🔴 Merah (Maks/Interval)"
  else if speed ≥ 38/10 then "🟠 Oranye (Tempo/Threshold)"
  else if speed ≥ 3 then "🟡 Kuning (Steady/Aerobic)"
  else "🟢 Hijau (Easy/Recovery)"

/-- `calculatePaceStats` from main.go: distributes a running activity's
distance (km) into its pace zone; non-runs and activities without positive
distance and moving time contribute the zero record. -/
def calculatePaceStats (activity : StravaActivity) : PaceStat :=
  if activity.type ≠ "Run" then PaceStat.zero
  else if activity.distance ≤ 0 ∨ activity.movingTime ≤ 0 then PaceStat.zero
  else
    let avgSpeed := activity.distance / activity.movingTime
    let distanceKM := activity.distance / 1000
    match getPaceZone avgSpeed with
    | "🔴 Merah (Maks/Interval)" => { PaceStat.zero with red := distanceKM }
    | "🟠 Oranye (Tempo/Threshold)" => { PaceStat.zero with orange := distanceKM }
    | "🟡 Kuning (Steady/Aerobic)" => { PaceStat.zero with yellow := distanceKM }
    | "🟢 Hijau (Easy/Recovery)" => { PaceStat.zero with green := distanceKM }
    | _ => PaceStat.zero

/-! ## Cache reading and extraction -/

/-- The error message `readLocalActivities` returns when no valid activity
survives extraction. -/
def noValidMsg : String := "tidak ada aktivitas valid yang ditemukan dalam file lokal"

/-- The extraction filter of `readLocalActivities`: keep an activity iff
`start_date` and `type` are strings and distance and moving time are
numeric and strictly positive. -/
def extractMinimal (activity : RawActivity) : Option MinimalActivityData :=
  let distance := (getFloat activity.distance).1
  let movingTime := (getFloat activity.moving_time).1
  let (startDate, ok1) := getString activity.start_date
  let (activityType, ok2) := getString activity.type
  if ok1 ∧ ok2 ∧ distance > 0 ∧ movingTime > 0 then
    some ⟨startDate, distance, movingTime, activityType⟩
  else none

/-- `readLocalActivities` from main.go, starting from the successfully
JSON-decoded cache contents (`rawActivities`): extracts the minimal fields
of each record and fails when nothing survives. -/
def readLocalActivities (rawActivities : List RawActivity) :
    Except String (List MinimalActivityData) :=
  let minimalActivities := rawActivities.filterMap extractMinimal
  if minimalActivities = [] then Except.error noValidMsg
  else Except.ok minimalActivities

/-! ## Monthly distance aggregation -/

/-- One loop iteration of `calculateMonthlyDistanceStats`: skip activities
with unparseable dates, otherwise add the distance to this month's record
under the activity's category. -/
def distanceStep (m : List (String × MonthlySportStats)) (activity : MinimalActivityData) :
    List (String × MonthlySportStats) :=
  match parseRFC3339 activity.startDate with
  | none => m
  | some t =>
    let my := monthKey t
    let category := classifyActivity activity.type
    let stat := mapGet m my ⟨my, 0, 0, 0⟩
    let stat' :=
      match category with
      | "RunWalkHike" => { stat with runWalkHike := stat.runWalkHike + activity.distance }
      | "Bike" => { stat with bike := stat.bike + activity.distance }
      | "Other" => { stat with other := stat.other + activity.distance }
      | _ => stat
    mapSet m my stat'

/-- The aggregation pass of `calculateMonthlyDistanceStats` over already
extracted activities, as the list of per-month records. -/
def distanceStatsCore (activities : List MinimalActivityData) : List MonthlySportStats :=
  (activities.foldl distanceStep []).map Prod.snd

/-- `calculateMonthlyDistanceStats` from main.go, from decoded cache
contents. -/
def calculateMonthlyDistanceStats (rawActivities : List RawActivity) :
    Except String (List MonthlySportStats) :=
  match readLocalActivities rawActivities with
  | Except.error e => Except.error e
  | Except.ok activities => Except.ok (distanceStatsCore activities)

/-! ## Monthly pace aggregation -/

/-- One accumulation iteration of `calculateMonthlyPaceStats`. -/
def paceStep (m : List (String × MonthlyPaceStats)) (activity : MinimalActivityData) :
    List (String × MonthlyPaceStats) :=
  match parseRFC3339 activity.startDate with
  | none => m
  | some t =>
    let my := monthKey t
    let category := classifyActivity activity.type
    let stat := mapGet m my ⟨my, 0, 0, 0, 0, 0, 0, 0, 0, 0⟩
    let stat' :=
      match category with
      | "RunWalkHike" =>
        { stat with runWalkHikeDistance := stat.runWalkHikeDistance + activity.distance,
                    runWalkHikeTime := stat.runWalkHikeTime + activity.movingTime }
      | "Bike" =>
        { stat with bikeDistance := stat.bikeDistance + activity.distance,
                    bikeTime := stat.bikeTime + activity.movingTime }
      | "Other" =>
        { stat with otherDistance := stat.otherDistance + activity.distance,
                    otherTime := stat.otherTime + activity.movingTime }
      | _ => stat
    mapSet m my stat'

/-- The final per-month pace derivation: each pace is set to
`Σ moving_time / Σ distance` only under the guard `Σ distance > 0`,
otherwise it keeps its accumulated (zero) value. -/
def finalizePace (stat : MonthlyPaceStats) : MonthlyPaceStats :=
  let stat := if stat.runWalkHikeDistance > 0 then
    { stat with runWalkHikePace := stat.runWalkHikeTime / stat.runWalkHikeDistance } else stat
  let stat := if stat.bikeDistance > 0 then
    { stat with bikePace := stat.bikeTime / stat.bikeDistance } else stat
  if stat.otherDistance > 0 then
    { stat with otherPace := stat.otherTime / stat.otherDistance } else stat

/-- The aggregation pass of `calculateMonthlyPaceStats` over already
extracted activities. -/
def paceStatsCore (activities : List MinimalActivityData) : List MonthlyPaceStats :=
  (activities.foldl paceStep []).map (fun kv => finalizePace kv.2)

/-- `calculateMonthlyPaceStats` from main.go, from decoded cache contents. -/
def calculateMonthlyPaceStats (rawActivities : List RawActivity) :
    Except String (List MonthlyPaceStats) :=
  match readLocalActivities rawActivities with
  | Except.error e => Except.error e
  | Except.ok activities => Except.ok (paceStatsCore activities)

/-! ## Token lifecycle

Network outcomes are passed explicitly: an `Except String StravaTokenResponse`
stands for the combined outcome of the POST to the token endpoint, its status
check and the JSON decode (the error string carrying the formatted message).
Time is in Unix seconds. -/

/-- `tokenTTLMargin` (60 seconds). -/
def tokenTTLMargin : Int := 60

/-- `saveToken` from main.go: wholesale replacement of the in-memory mirror
and the persisted token file. -/
def saveToken (t : TokenData) : ServerState := ⟨t, some t⟩

/-- `refreshAccessToken` from main.go: exchanges the stored refresh token;
on success overwrites access token and expiry, keeps the prior refresh token
when the upstream response carries an empty one, and persists via
`saveToken`.  Mutexes are outside this sequential embedding; note that the
Go function acquires `tokenMutex` and then calls `saveToken`, which acquires
it again — with Go's non-reentrant `sync.Mutex` that nested acquisition
self-deadlocks at runtime, a concurrency defect this functional model does
not capture. -/
def refreshAccessToken (st : ServerState) (upstream : Except String StravaTokenResponse) :
    Except String ServerState :=
  if st.mem.refreshToken = "" then
    Except.error "tidak ada refresh token yang tersimpan. Pengguna harus login ulang"
  else
    match upstream with
    | Except.error e => Except.error e
    | Except.ok newTokens =>
      let updated : TokenData :=
        { accessToken := newTokens.accessToken,
          expiresAt := newTokens.expiresAt,
          refreshToken :=
            if newTokens.refreshToken ≠ "" then newTokens.refreshToken
            else st.mem.refreshToken }
      Except.ok (saveToken updated)

/-- `ensureValidToken` from main.go: fails when never authenticated;
refreshes when `now + margin` is strictly after the stored expiry; returns
the (possibly refreshed) access token together with the resulting state. -/
def ensureValidToken (now : Int) (st : ServerState)
    (upstream : Except String StravaTokenResponse) :
    Except String (String × ServerState) :=
  if st.mem.accessToken = "" then
    Except.error "access token tidak ada. Silakan login melalui /api/auth/strava"
  else if now + tokenTTLMargin > st.mem.expiresAt then
    match refreshAccessToken st upstream with
    | Except.error e => Except.error e
    | Except.ok st' => Except.ok (st'.mem.accessToken, st')
  else
    Except.ok (st.mem.accessToken, st)

/-! ## OAuth callback -/

/-- Outcome of `handleStravaCallback` as seen by the client. -/
inductive CallbackOutcome where
  | redirectDenied
  | badRequest
  | exchangeFailed (details : String)
  | redirectSuccess
  deriving DecidableEq, Repr

/-- `handleStravaCallback` from main.go: with a non-empty code, exchanges it
upstream and on success persists the decoded response wholesale via
`saveToken`.  `errorParam` is the `error` query parameter; `upstream` the
outcome of the code exchange. -/
def handleStravaCallback (st : ServerState) (code errorParam : String)
    (upstream : Except String StravaTokenResponse) : CallbackOutcome × ServerState :=
  if code = "" then
    if errorParam ≠ "" then (CallbackOutcome.redirectDenied, st)
    else (CallbackOutcome.badRequest, st)
  else
    match upstream with
    | Except.error e => (CallbackOutcome.exchangeFailed e, st)
    | Except.ok tokenResponse =>
      let newState := saveToken
        ⟨tokenResponse.accessToken, tokenResponse.refreshToken, tokenResponse.expiresAt⟩
      (CallbackOutcome.redirectSuccess, newState)

/-! ## Bulk fetch -/

/-- Outcome of one page request of the activity listing (request + status
check + JSON decode). -/
inductive PageResult where
  | ok (activities : List RawActivity)
  | netError (msg : String)
  | httpError (status : String) (body : String)
  | decodeError (msg : String)
  deriving Repr

/-- `perPage` in `fetchAndSaveAllActivities` (latest variant). -/
def perPage : ℕ := 200

/-- The page loop of `fetchAndSaveAllActivities`: request page after page,
appending results, until a short page; any page failure aborts with an
error.  `fuel` bounds the number of iterations (the Go loop has no bound;
running out of fuel is modelled as a failure). -/
def fetchLoop (upstream : ℕ → PageResult) : ℕ → ℕ → List RawActivity →
    Except String (List RawActivity)
  | 0, _, _ => Except.error "loop tidak berhenti"
  | fuel + 1, page, acc =>
    match upstream page with
    | PageResult.netError m =>
      Except.error ("gagal mengambil aktivitas dari Strava (Timeout/Network Error): " ++ m)
    | PageResult.httpError status body =>
      Except.error ("API Strava error: " ++ status ++ " - Body: " ++ body)
    | PageResult.decodeError m => Except.error ("gagal mengurai respons Strava: " ++ m)
    | PageResult.ok currentActivities =>
      let acc' := acc ++ currentActivities
      if currentActivities.length < perPage then Except.ok acc'
      else fetchLoop upstream fuel (page + 1) acc'

/-- `fetchAndSaveAllActivities` from main.go as a transformer of the cache
file contents (`none` = file absent): the file is created/replaced only
after every page has been fetched successfully. -/
def fetchAndSaveAllActivities (upstream : ℕ → PageResult) (fuel : ℕ)
    (cache : Option (List RawActivity)) :
    Except String Unit × Option (List RawActivity) :=
  match fetchLoop upstream fuel 1 [] with
  | Except.error e => (Except.error e, cache)
  | Except.ok allActivities => (Except.ok (), some allActivities)

/-! ## Weekly pace-zone handler -/

/-- The day numbers of the inclusive range `[startDay, endDay]`, as the
initialization loop of `handleGetWeeklyPaceStats` enumerates them. -/
def rangeDays (startDay endDay : Int) : List Int :=
  (List.range (endDay + 1 - startDay).toNat).map (fun i : ℕ => startDay + (i : Int))

/-- The zero-filled per-day map the handler starts from. -/
def initWeekly (startDay endDay : Int) : List (Int × PaceStat) :=
  (rangeDays startDay endDay).map (fun d => (d, PaceStat.zero))

/-- One iteration of the activity loop of `handleGetWeeklyPaceStats`:
parse the local start date, truncate to its calendar day, and when the day
lies in `[startDay, endDay]` add the activity's zone distances to that
day's entry (a Go map read-modify-write). -/
def weeklyStep (startDay endDay : Int) (m : List (Int × PaceStat))
    (activity : StravaActivity) : List (Int × PaceStat) :=
  match parseRFC3339 activity.startDateLocal with
  | none => m
  | some t =>
    let d := dayNumber t
    if (d = startDay ∨ startDay < d) ∧ (d = endDay ∨ d < endDay + 1) then
      let p := calculatePaceStats activity
      let cur := mapGet m d PaceStat.zero
      mapSet m d ⟨cur.red + p.red, cur.orange + p.orange, cur.yellow + p.yellow,
        cur.green + p.green⟩
    else m

/-- The aggregation core of `handleGetWeeklyPaceStats` for an explicit,
already parsed day range: the per-day zone breakdown it responds with
(keys are day numbers; the Go handler formats them as `YYYY-MM-DD`). -/
def weeklyPaceStatsCore (startDay endDay : Int) (activities : List StravaActivity) :
    List (Int × PaceStat) :=
  activities.foldl (weeklyStep startDay endDay) (initWeekly startDay endDay)

/-- Model of `time.ParseInLocation("2006-01-02", s, time.UTC)` followed by
taking the day number: parses `YYYY-MM-DD`. -/
def parseDay (s : String) : Option Int :=
  match parseRFC3339 (s ++ "T00:00:00Z") with
  | some t => some (dayNumber t)
  | none => none

/-- `handleGetWeeklyPaceStats` from main.go on the explicit-range path
(both query parameters present): parse both dates (rejecting with a 400 on
failure) and respond with the per-day map — the full response body; no
summary totals are computed. -/
def handleGetWeeklyPaceStats (startQuery endQuery : String)
    (activities : List StravaActivity) : Except String (List (Int × PaceStat)) :=
  match parseDay startQuery with
  | none => Except.error "Invalid startDate format. Use YYYY-MM-DD."
  | some startDay =>
    match parseDay endQuery with
    | none => Except.error "Invalid endDate format. Use YYYY-MM-DD."
    | some endDay => Except.ok (weeklyPaceStatsCore startDay endDay activities)

/-! ## Stats endpoints -/

/-- An HTTP response of the monthly stats endpoints: success, the 401 sent
when `ensureValidToken` fails, or the 500 sent when aggregation fails. -/
inductive ApiResponse (α : Type) where
  | ok (val : α)
  | authError (details : String)
  | serverError (details : String)
  deriving DecidableEq, Repr

/-- `handleGetDistanceStats` from main.go: requires a valid token before
touching the local cache, then serves the monthly distance aggregate. -/
def handleGetDistanceStats (now : Int) (st : ServerState)
    (upstream : Except String StravaTokenResponse) (rawActivities : List RawActivity) :
    ApiResponse (List MonthlySportStats) :=
  match ensureValidToken now st upstream with
  | Except.error e => ApiResponse.authError e
  | Except.ok _ =>
    match calculateMonthlyDistanceStats rawActivities with
    | Except.error e => ApiResponse.serverError e
    | Except.ok stats => ApiResponse.ok stats

/-- `handleGetPaceStats` from main.go: requires a valid token before
touching the local cache, then serves the monthly pace aggregate. -/
def handleGetPaceStats (now : Int) (st : ServerState)
    (upstream : Except String StravaTokenResponse) (rawActivities : List RawActivity) :
    ApiResponse (List MonthlyPaceStats) :=
  match ensureValidToken now st upstream with
  | Except.error e => ApiResponse.authError e
  | Except.ok _ =>
    match calculateMonthlyPaceStats rawActivities with
    | Except.error e => ApiResponse.serverError e
    | Except.ok stats => ApiResponse.ok stats

/-! ## Derived totals used to state the algebraic claims -/

/-- Total distance of one monthly record over all three categories. -/
def statTotal (s : MonthlySportStats) : ℚ := s.runWalkHike + s.bike + s.other

/-- Total of the monthly distance aggregate across all categories and months. -/
def aggregateTotal (stats : List MonthlySportStats) : ℚ := (stats.map statTotal).sum

/-- Total of a per-month grouping map. -/
def mapTotal (m : List (String × MonthlySportStats)) : ℚ :=
  (m.map (fun kv => statTotal kv.2)).sum

/-- Sum of `distance` over the extracted activities whose start date parses. -/
def parseableDistanceSum (acts : List MinimalActivityData) : ℚ :=
  (acts.map (fun a => if (parseRFC3339 a.startDate).isSome then a.distance else 0)).sum

/-- Stated from the claim's words, for comparison with the code's aggregate:
the sum of `distance` over all cached activities whose `start_date` parses
as a valid timestamp (no positivity requirement on distance or moving time). -/
def specCacheDistanceTotal (raw : List RawActivity) : ℚ :=
  (raw.map (fun a =>
    if (parseRFC3339 (getString a.start_date).1).isSome then (getFloat a.distance).1 else 0)).sum

/-- The pace fields of a monthly record are all (still) zero — the state of
every record during the accumulation phase of `calculateMonthlyPaceStats`. -/
def pacesZero (s : MonthlyPaceStats) : Prop :=
  s.runWalkHikePace = 0 ∧ s.bikePace = 0 ∧ s.otherPace = 0

/-! ## Concrete fixtures for witnesses and counterexamples -/

/-- A cached run: 50 m in 10 s on 2024-03-15. -/
def rawRun : RawActivity :=
  ⟨some (JsonVal.num 50), some (JsonVal.num 10),
   some (JsonVal.str "2024-03-15T11:00:00Z"), some (JsonVal.str "Run")⟩

/-- A cached activity with positive distance but zero moving time and a
parseable date (dropped by the extraction filter). -/
def rawZeroTime : RawActivity :=
  ⟨some (JsonVal.num 100), some (JsonVal.num 0),
   some (JsonVal.str "2024-03-15T10:00:00Z"), some (JsonVal.str "Run")⟩

/-- The extraction of `rawRun`. -/
def mactRun : MinimalActivityData := ⟨"2024-03-15T11:00:00Z", 50, 10, "Run"⟩

/-- A server state holding a far-from-expiry token. -/
def stValid : ServerState := ⟨⟨"tok", "ref", 4000⟩, some ⟨"tok", "ref", 4000⟩⟩

/-- A server state holding a token that expires at Unix second 30. -/
def stExpiring : ServerState := ⟨⟨"tok", "ref", 30⟩, some ⟨"tok", "ref", 30⟩⟩

/-- A server state that was never authenticated. -/
def stNoToken : ServerState := ⟨⟨"", "", 0⟩, none⟩

/-- An upstream token response carrying no refresh token. -/
def respNoRefresh : StravaTokenResponse := ⟨"newtok", "", 5000⟩

/-- A run activity on local day 1970-01-02 (day number 1). -/
def actDay1 : StravaActivity :=
  ⟨1, "run", 9, 3, 4, "Run", "1970-01-02T00:00:00Z", "1970-01-02T00:00:00Z"⟩

/-- A run activity on local day 2024-03-15: 9 m in 3 s, average speed
3 m/s, i.e. zone Yellow. -/
def actMar15 : StravaActivity :=
  ⟨2, "run", 9, 3, 4, "Run", "2024-03-15T10:00:00Z", "2024-03-15T10:00:00Z"⟩

/-! # Theorems -/

/-- C1 (counterexample): with a valid token and a cache whose contents
decode to the empty array `[]`, both monthly stats endpoints respond with
the server error "no valid activities", not with the empty list: the claim
that they succeed and return `[]` is false. -/
theorem c1_empty_cache_errors :
    handleGetDistanceStats 0 stValid (Except.ok respNoRefresh) [] =
      ApiResponse.serverError noValidMsg ∧
    handleGetPaceStats 0 stValid (Except.ok respNoRefresh) [] =
      ApiResponse.serverError noValidMsg :=
  ⟨rfl, rfl⟩

/-- C1 (amended): for every cache whose contents decode to `[]`, whenever
`ensureValidToken` succeeds both monthly stats endpoints respond with the
server error "no valid activities" (`readLocalActivities` rejects an empty
extraction), never with the empty list. -/
theorem c1_empty_cache_server_error (now : Int) (st : ServerState)
    (upstream : Except String StravaTokenResponse)
    (h : ∃ v, ensureValidToken now st upstream = Except.ok v) :
    handleGetDistanceStats now st upstream [] = ApiResponse.serverError noValidMsg ∧
    handleGetPaceStats now st upstream [] = ApiResponse.serverError noValidMsg := by
  obtain ⟨v, hv⟩ := h
  unfold handleGetDistanceStats handleGetPaceStats
  rw [hv]
  exact ⟨rfl, rfl⟩

/-- C1 (witness for the amended theorem). -/
theorem c1_empty_cache_server_error_witness :
    (∃ v, ensureValidToken 0 stValid (Except.ok respNoRefresh) = Except.ok v) ∧
    (handleGetDistanceStats 0 stValid (Except.ok respNoRefresh) [] =
        ApiResponse.serverError noValidMsg ∧
      handleGetPaceStats 0 stValid (Except.ok respNoRefresh) [] =
        ApiResponse.serverError noValidMsg) :=
  ⟨⟨("tok", stValid), rfl⟩,
    c1_empty_cache_server_error 0 stValid (Except.ok respNoRefresh) ⟨("tok", stValid), rfl⟩⟩

/-- C2 (counterexample): the callback path persists the upstream response
wholesale; with a stored refresh token "ref" and an upstream response whose
refresh token is empty, the persisted record's refresh token becomes the
empty string, not "ref": the claim is false. -/
theorem c2_callback_overwrites_refresh :
    stValid.mem.refreshToken = "ref" ∧
    handleStravaCallback stValid "authcode" "" (Except.ok respNoRefresh) =
      (CallbackOutcome.redirectSuccess, ⟨⟨"newtok", "", 5000⟩, some ⟨"newtok", "", 5000⟩⟩) :=
  ⟨rfl, rfl⟩

/-- C2 (amended): on a successful exchange the callback path replaces the
persisted token record wholesale with the decoded upstream response — the
refresh-token field included, even when it is empty; the retain-on-empty
guard exists only in `refreshAccessToken`. -/
theorem c2_callback_saves_wholesale (st : ServerState) (code errorParam : String)
    (resp : StravaTokenResponse) (h : code ≠ "") :
    handleStravaCallback st code errorParam (Except.ok resp) =
      (CallbackOutcome.redirectSuccess,
        saveToken ⟨resp.accessToken, resp.refreshToken, resp.expiresAt⟩) := by
  unfold handleStravaCallback
  rw [if_neg h]

/-- C2 (witness for the amended theorem). -/
theorem c2_callback_saves_wholesale_witness :
    ("authcode" : String) ≠ "" ∧
    handleStravaCallback stValid "authcode" "" (Except.ok respNoRefresh) =
      (CallbackOutcome.redirectSuccess,
        saveToken ⟨respNoRefresh.accessToken, respNoRefresh.refreshToken,
          respNoRefresh.expiresAt⟩) :=
  ⟨by decide, c2_callback_saves_wholesale stValid "authcode" "" respNoRefresh (by decide)⟩

/-- C3 (evaluation at the failing input): for the request
`startDate=2024-03-11&endDate=2024-03-17` over a cache with one run
(10 km in 3000 s on 2024-03-15, i.e. zone Yellow), the handler's entire
response body is the bare day-to-zones map — it computes no total
distance, no total moving time and no overall average pace. -/
theorem c3_weekly_response_is_bare_map :
    handleGetWeeklyPaceStats "2024-03-11" "2024-03-17" [actMar15] =
      Except.ok [(19793, PaceStat.zero), (19794, PaceStat.zero), (19795, PaceStat.zero),
        (19796, PaceStat.zero), (19797, ⟨0, 0, 9/1000, 0⟩), (19798, PaceStat.zero),
        (19799, PaceStat.zero)] := by
  rfl

/-- C5: whenever the bulk fetch fails — network/timeout error, non-success
upstream status, undecodable body on any page (or a non-terminating page
sequence) — the cache file is neither created nor modified: the resulting
cache contents equal the prior ones exactly. -/
theorem c5_fetch_failure_preserves_cache (upstream : ℕ → PageResult) (fuel : ℕ)
    (cache : Option (List RawActivity)) (e : String)
    (h : (fetchAndSaveAllActivities upstream fuel cache).1 = Except.error e) :
    (fetchAndSaveAllActivities upstream fuel cache).2 = cache := by
  unfold fetchAndSaveAllActivities at h ⊢
  cases hl : fetchLoop upstream fuel 1 [] with
  | error e' => rfl
  | ok v => rw [hl] at h; simp at h

/-- C5 (witness): a 401 on the first page leaves a one-activity cache
untouched. -/
theorem c5_fetch_failure_preserves_cache_witness :
    (fetchAndSaveAllActivities (fun _ => PageResult.httpError "401 Unauthorized" "invalid token") 5
        (some [rawRun])).1 =
      Except.error "API Strava error: 401 Unauthorized - Body: invalid token" ∧
    (fetchAndSaveAllActivities (fun _ => PageResult.httpError "401 Unauthorized" "invalid token") 5
        (some [rawRun])).2 = some [rawRun] :=
  ⟨rfl, c5_fetch_failure_preserves_cache (fun _ => PageResult.httpError "401 Unauthorized" "invalid token")
    5 (some [rawRun]) "API Strava error: 401 Unauthorized - Body: invalid token" rfl⟩

/-- C6: for a stored token whose expiry minus the 60-second margin has
passed or is imminent (`now + 60` strictly after `expires_at`),
`ensureValidToken` performs the refresh exchange and its outcome is exactly
the refresh outcome: an access token is returned only if the refresh
succeeds, and then it is the refreshed token. -/
theorem c6_refresh_when_imminent (now : Int) (st : ServerState)
    (upstream : Except String StravaTokenResponse)
    (h1 : st.mem.accessToken ≠ "") (h2 : now + tokenTTLMargin > st.mem.expiresAt) :
    ensureValidToken now st upstream =
      (refreshAccessToken st upstream).map (fun s => (s.mem.accessToken, s)) := by
  unfold ensureValidToken
  rw [if_neg h1, if_pos h2]
  cases refreshAccessToken st upstream <;> rfl

/-- C6 (witness): a token with `expires_at` 30 seconds in the future (now =
0) triggers the refresh. -/
theorem c6_refresh_when_imminent_witness :
    stExpiring.mem.accessToken ≠ "" ∧ (0 : Int) + tokenTTLMargin > stExpiring.mem.expiresAt ∧
    ensureValidToken 0 stExpiring (Except.ok respNoRefresh) =
      (refreshAccessToken stExpiring (Except.ok respNoRefresh)).map
        (fun s => (s.mem.accessToken, s)) :=
  ⟨by decide, by decide,
    c6_refresh_when_imminent 0 stExpiring (Except.ok respNoRefresh) (by decide) (by decide)⟩

/-- C9: a successful refresh whose upstream response carries an empty
refresh token keeps the prior refresh token in both the in-memory mirror
and the persisted token file, and overwrites only the access token and the
expiry. -/
theorem c9_refresh_keeps_prior_token (st : ServerState) (resp : StravaTokenResponse)
    (h1 : st.mem.refreshToken ≠ "") (h2 : resp.refreshToken = "") :
    refreshAccessToken st (Except.ok resp) =
      Except.ok ⟨⟨resp.accessToken, st.mem.refreshToken, resp.expiresAt⟩,
        some ⟨resp.accessToken, st.mem.refreshToken, resp.expiresAt⟩⟩ := by
  unfold refreshAccessToken saveToken
  rw [if_neg h1]
  simp [h2]

/-- C9 (witness): refreshing `stExpiring` with an upstream response whose
refresh token is empty keeps "ref" in memory and on disk. -/
theorem c9_refresh_keeps_prior_token_witness :
    stExpiring.mem.refreshToken ≠ "" ∧ respNoRefresh.refreshToken = "" ∧
    refreshAccessToken stExpiring (Except.ok respNoRefresh) =
      Except.ok ⟨⟨respNoRefresh.accessToken, stExpiring.mem.refreshToken,
          respNoRefresh.expiresAt⟩,
        some ⟨respNoRefresh.accessToken, stExpiring.mem.refreshToken,
          respNoRefresh.expiresAt⟩⟩ :=
  ⟨by decide, by decide,
    c9_refresh_keeps_prior_token stExpiring respNoRefresh (by decide) (by decide)⟩

/-- C10: whenever `ensureValidToken` fails, both monthly stats endpoints
respond with its authentication error, for every cache contents alike — the
cache is not consulted. -/
theorem c10_stats_require_token (now : Int) (st : ServerState)
    (upstream : Except String StravaTokenResponse) (e : String)
    (h : ensureValidToken now st upstream = Except.error e) :
    ∀ rawActivities : List RawActivity,
      handleGetDistanceStats now st upstream rawActivities = ApiResponse.authError e ∧
      handleGetPaceStats now st upstream rawActivities = ApiResponse.authError e := by
  intro raw
  unfold handleGetDistanceStats handleGetPaceStats
  rw [h]
  exact ⟨rfl, rfl⟩

/-- C10 (witness): with no token ever stored, both endpoints answer with the
authentication error on a populated cache. -/
theorem c10_stats_require_token_witness :
    ensureValidToken 0 stNoToken (Except.ok respNoRefresh) =
      Except.error "access token tidak ada. Silakan login melalui /api/auth/strava" ∧
    (handleGetDistanceStats 0 stNoToken (Except.ok respNoRefresh) [rawRun] =
        ApiResponse.authError
          "access token tidak ada. Silakan login melalui /api/auth/strava" ∧
      handleGetPaceStats 0 stNoToken (Except.ok respNoRefresh) [rawRun] =
        ApiResponse.authError
          "access token tidak ada. Silakan login melalui /api/auth/strava") :=
  ⟨rfl, c10_stats_require_token 0 stNoToken (Except.ok respNoRefresh)
    "access token tidak ada. Silakan login melalui /api/auth/strava" rfl [rawRun]⟩

/-! ## Association-list lemmas -/

/-- Setting an existing key does not change the key list. -/
theorem mapSet_map_fst_of_mem {m : List (κ × α)} {k : κ} (v : α)
    (h : k ∈ m.map Prod.fst) : (mapSet m k v).map Prod.fst = m.map Prod.fst := by
  induction m with
  | nil => simp at h
  | cons p rest ih =>
    obtain ⟨k', v'⟩ := p
    by_cases hk : k' = k
    · simp [mapSet, hk]
    · simp only [List.map_cons, List.mem_cons] at h
      have hk2 : k ∈ rest.map Prod.fst := by
        rcases h with h' | h'
        · exact absurd h'.symm hk
        · exact h'
      simp [mapSet, hk, ih hk2]

/-- Reading another key is unaffected by a set. -/
theorem mapGet_mapSet_ne {m : List (κ × α)} {k k' : κ} (v d : α) (h : k' ≠ k) :
    mapGet (mapSet m k v) k' d = mapGet m k' d := by
  induction m with
  | nil => simp [mapSet, mapGet, if_neg (Ne.symm h)]
  | cons p rest ih =>
    obtain ⟨k'', v''⟩ := p
    by_cases hk : k'' = k
    · subst hk
      simp [mapSet, mapGet, if_neg (Ne.symm h)]
    · simp only [mapSet, if_neg hk, mapGet]
      by_cases hk' : k'' = k' <;> simp [hk', ih]

/-- Every element of `mapSet m k v` is `(k, v)` or an element of `m`. -/
theorem mem_of_mem_mapSet {m : List (κ × α)} {k : κ} {v : α} {x : κ × α}
    (h : x ∈ mapSet m k v) : x = (k, v) ∨ x ∈ m := by
  induction m with
  | nil =>
    simp only [mapSet, List.mem_singleton] at h
    exact Or.inl h
  | cons p rest ih =>
    obtain ⟨k', v'⟩ := p
    by_cases hk : k' = k
    · simp only [mapSet, if_pos hk] at h
      rcases List.mem_cons.1 h with h1 | h1
      · exact Or.inl h1
      · exact Or.inr (List.mem_cons_of_mem _ h1)
    · simp only [mapSet, if_neg hk] at h
      rcases List.mem_cons.1 h with h1 | h1
      · exact Or.inr (List.mem_cons.2 (Or.inl h1))
      · rcases ih h1 with h2 | h2
        · exact Or.inl h2
        · exact Or.inr (List.mem_cons_of_mem _ h2)

/-- A read either returns the zero value or an element of the list. -/
theorem mapGet_eq_or_mem (m : List (κ × α)) (k : κ) (d : α) :
    mapGet m k d = d ∨ (k, mapGet m k d) ∈ m := by
  induction m with
  | nil => exact Or.inl rfl
  | cons p rest ih =>
    obtain ⟨k', v'⟩ := p
    by_cases hk : k' = k
    · subst hk
      refine Or.inr ?_
      simp [mapGet]
    · simp only [mapGet, if_neg hk]
      rcases ih with h | h
      · exact Or.inl h
      · exact Or.inr (List.mem_cons_of_mem _ h)

/-! ## Conservation of the monthly distance aggregate (C4) -/

/-- `classifyActivity` is total over the three categories. -/
theorem classifyActivity_cases (t : String) :
    classifyActivity t = "RunWalkHike" ∨ classifyActivity t = "Bike" ∨
      classifyActivity t = "Other" := by
  unfold classifyActivity
  split <;> simp

/-- Go's zero-initialized monthly record has total zero. -/
theorem statTotal_init (my : String) : statTotal ⟨my, 0, 0, 0⟩ = 0 := by
  simp [statTotal]

/-- `mapTotal` on an empty map. -/
theorem mapTotal_nil : mapTotal [] = 0 := rfl

/-- `mapTotal` on a cons. -/
theorem mapTotal_cons (p : String × MonthlySportStats) (l : List (String × MonthlySportStats)) :
    mapTotal (p :: l) = statTotal p.2 + mapTotal l := by
  simp [mapTotal]

/-- Replacing (or inserting) a key changes the map total by the difference
between the new value and the previously read one. -/
theorem mapTotal_mapSet (m : List (String × MonthlySportStats)) (k : String)
    (v d : MonthlySportStats) (hd : statTotal d = 0) :
    mapTotal (mapSet m k v) = mapTotal m + statTotal v - statTotal (mapGet m k d) := by
  induction m with
  | nil => simp [mapSet, mapGet, mapTotal_cons, mapTotal_nil, hd]
  | cons p rest ih =>
    obtain ⟨k', v'⟩ := p
    by_cases hk : k' = k
    · simp only [mapSet, if_pos hk, mapGet, mapTotal_cons]
      ring
    · simp only [mapSet, if_neg hk, mapGet, mapTotal_cons, ih]
      ring

/-- One distance-aggregation step adds exactly the activity's distance when
its date parses, and nothing otherwise. -/
theorem mapTotal_distanceStep (m : List (String × MonthlySportStats))
    (a : MinimalActivityData) :
    mapTotal (distanceStep m a) =
      mapTotal m + (if (parseRFC3339 a.startDate).isSome then a.distance else 0) := by
  unfold distanceStep
  cases hp : parseRFC3339 a.startDate with
  | none => simp
  | some t =>
    simp only [Option.isSome_some, if_true]
    have hstep : statTotal
        (match classifyActivity a.type with
          | "RunWalkHike" =>
            { mapGet m (monthKey t) ⟨monthKey t, 0, 0, 0⟩ with
              runWalkHike :=
                (mapGet m (monthKey t) ⟨monthKey t, 0, 0, 0⟩).runWalkHike + a.distance }
          | "Bike" =>
            { mapGet m (monthKey t) ⟨monthKey t, 0, 0, 0⟩ with
              bike := (mapGet m (monthKey t) ⟨monthKey t, 0, 0, 0⟩).bike + a.distance }
          | "Other" =>
            { mapGet m (monthKey t) ⟨monthKey t, 0, 0, 0⟩ with
              other := (mapGet m (monthKey t) ⟨monthKey t, 0, 0, 0⟩).other + a.distance }
          | _ => mapGet m (monthKey t) ⟨monthKey t, 0, 0, 0⟩) =
        statTotal (mapGet m (monthKey t) ⟨monthKey t, 0, 0, 0⟩) + a.distance := by
      rcases classifyActivity_cases a.type with h | h | h <;> rw [h] <;> simp [statTotal] <;>
        ring
    rw [mapTotal_mapSet _ _ _ _ (statTotal_init (monthKey t)), hstep]
    ring

/-- Folding the distance aggregation over a list of activities adds the sum
of the distances of the activities with parseable dates. -/
theorem mapTotal_foldl_distanceStep (acts : List MinimalActivityData)
    (m : List (String × MonthlySportStats)) :
    mapTotal (acts.foldl distanceStep m) = mapTotal m + parseableDistanceSum acts := by
  induction acts generalizing m with
  | nil => simp [parseableDistanceSum]
  | cons a rest ih =>
    simp only [List.foldl_cons, ih, mapTotal_distanceStep, parseableDistanceSum,
      List.map_cons, List.sum_cons]
    ring

/-- The aggregation core conserves the distance of parseable-date activities. -/
theorem aggregateTotal_distanceStatsCore (acts : List MinimalActivityData) :
    aggregateTotal (distanceStatsCore acts) = parseableDistanceSum acts := by
  unfold aggregateTotal distanceStatsCore
  rw [List.map_map]
  have h := mapTotal_foldl_distanceStep acts []
  rw [mapTotal_nil, zero_add] at h
  rw [← h]
  rfl

/-- C4 (counterexample): a cached activity with positive distance, a
parseable date but zero moving time is dropped by the extraction filter, so
the monthly aggregate total (50) differs from the claim's sum of distance
over all cached activities with parseable dates (150). -/
theorem c4_conservation_fails :
    calculateMonthlyDistanceStats [rawZeroTime, rawRun] =
      Except.ok [⟨"2024-03", 50, 0, 0⟩] ∧
    aggregateTotal [⟨"2024-03", 50, 0, 0⟩] = 50 ∧
    specCacheDistanceTotal [rawZeroTime, rawRun] = 150 ∧ (50 : ℚ) ≠ 150 :=
  ⟨rfl, by decide, by decide, by decide⟩

/-- C4 (amended): the sum of the monthly distance aggregate over all
categories and months equals the sum of `distance` over the activities that
survive the minimal-field extraction (string date/type, positive distance
and moving time) and whose start date parses as a valid timestamp. -/
theorem c4_conservation (raw : List RawActivity) (acts : List MinimalActivityData)
    (stats : List MonthlySportStats)
    (hr : readLocalActivities raw = Except.ok acts)
    (hs : calculateMonthlyDistanceStats raw = Except.ok stats) :
    aggregateTotal stats = parseableDistanceSum acts := by
  unfold calculateMonthlyDistanceStats at hs
  rw [hr] at hs
  have : stats = distanceStatsCore acts := by
    cases hs
    rfl
  rw [this]
  exact aggregateTotal_distanceStatsCore acts

/-- C4 (witness for the amended theorem): on the two-activity cache the
extraction keeps only the 50 m run, and both sides equal 50. -/
theorem c4_conservation_witness :
    readLocalActivities [rawZeroTime, rawRun] = Except.ok [mactRun] ∧
    calculateMonthlyDistanceStats [rawZeroTime, rawRun] =
      Except.ok [⟨"2024-03", 50, 0, 0⟩] ∧
    aggregateTotal [⟨"2024-03", 50, 0, 0⟩] = parseableDistanceSum [mactRun] :=
  ⟨rfl, rfl, c4_conservation [rawZeroTime, rawRun] [mactRun] [⟨"2024-03", 50, 0, 0⟩] rfl rfl⟩

/-! ## Zero-safe pace derivation (C8) -/

/-- During accumulation one pace step never touches the pace fields: every
record in the resulting map still has all paces zero. -/
theorem paceStep_pacesZero (m : List (String × MonthlyPaceStats)) (a : MinimalActivityData)
    (hm : ∀ kv ∈ m, pacesZero kv.2) : ∀ kv ∈ paceStep m a, pacesZero kv.2 := by
  intro kv hkv
  unfold paceStep at hkv
  cases hp : parseRFC3339 a.startDate with
  | none =>
    rw [hp] at hkv
    exact hm kv hkv
  | some t =>
    rw [hp] at hkv
    dsimp only at hkv
    rcases mem_of_mem_mapSet hkv with h | h
    · have hz : pacesZero (mapGet m (monthKey t) ⟨monthKey t, 0, 0, 0, 0, 0, 0, 0, 0, 0⟩) := by
        rcases mapGet_eq_or_mem m (monthKey t) ⟨monthKey t, 0, 0, 0, 0, 0, 0, 0, 0, 0⟩ with
          h' | h'
        · rw [h']
          exact ⟨rfl, rfl, rfl⟩
        · exact hm _ h'
      subst h
      rcases classifyActivity_cases a.type with hc | hc | hc <;> rw [hc] <;>
        simpa [pacesZero] using hz
    · exact hm kv h

/-- The accumulation fold keeps all pace fields zero. -/
theorem foldl_paceStep_pacesZero (acts : List MinimalActivityData)
    (m : List (String × MonthlyPaceStats)) (hm : ∀ kv ∈ m, pacesZero kv.2) :
    ∀ kv ∈ acts.foldl paceStep m, pacesZero kv.2 := by
  induction acts generalizing m with
  | nil => exact hm
  | cons a rest ih =>
    intro kv hkv
    exact ih (paceStep m a) (paceStep_pacesZero m a hm) kv hkv

/-- The finalization of a record with zero pace fields sets each pace to
time/distance exactly under the guard `distance > 0` and leaves it zero
otherwise; distances and times are unchanged. -/
theorem finalizePace_spec (g : MonthlyPaceStats) (hg : pacesZero g) :
    (finalizePace g).runWalkHikeDistance = g.runWalkHikeDistance ∧
    (finalizePace g).bikeDistance = g.bikeDistance ∧
    (finalizePace g).otherDistance = g.otherDistance ∧
    (g.runWalkHikeDistance > 0 →
      (finalizePace g).runWalkHikePace = g.runWalkHikeTime / g.runWalkHikeDistance) ∧
    (¬g.runWalkHikeDistance > 0 → (finalizePace g).runWalkHikePace = 0) ∧
    (g.bikeDistance > 0 → (finalizePace g).bikePace = g.bikeTime / g.bikeDistance) ∧
    (¬g.bikeDistance > 0 → (finalizePace g).bikePace = 0) ∧
    (g.otherDistance > 0 → (finalizePace g).otherPace = g.otherTime / g.otherDistance) ∧
    (¬g.otherDistance > 0 → (finalizePace g).otherPace = 0) := by
  obtain ⟨h1, h2, h3⟩ := hg
  unfold finalizePace
  by_cases ha : g.runWalkHikeDistance > 0 <;> by_cases hb : g.bikeDistance > 0 <;>
    by_cases hc : g.otherDistance > 0 <;>
    simp [ha, hb, hc, h1, h2, h3]

/-- C8: in the monthly pace aggregate every month's per-category pace is
`Σ moving_time / Σ distance` only under the guard `Σ distance > 0`, and is
exactly 0 when the accumulated distance is not positive — the division is
never performed without the guard. -/
theorem c8_pace_zero_guard (raw : List RawActivity) (res : List MonthlyPaceStats)
    (h : calculateMonthlyPaceStats raw = Except.ok res) :
    ∀ s ∈ res,
      (¬s.runWalkHikeDistance > 0 → s.runWalkHikePace = 0) ∧
      (¬s.bikeDistance > 0 → s.bikePace = 0) ∧
      (¬s.otherDistance > 0 → s.otherPace = 0) := by
  unfold calculateMonthlyPaceStats at h
  cases hr : readLocalActivities raw with
  | error e => rw [hr] at h; cases h
  | ok acts =>
    rw [hr] at h
    have hres : res = paceStatsCore acts := by cases h; rfl
    subst hres
    intro s hs
    unfold paceStatsCore at hs
    rcases List.mem_map.1 hs with ⟨kv, hkv, hfin⟩
    have hz : pacesZero kv.2 :=
      foldl_paceStep_pacesZero acts [] (by intro kv h'; cases h') kv hkv
    obtain ⟨hd1, hd2, hd3, _, hz1, _, hz2, _, hz3⟩ := finalizePace_spec kv.2 hz
    subst hfin
    exact ⟨fun hn => hz1 (hd1 ▸ hn), fun hn => hz2 (hd2 ▸ hn), fun hn => hz3 (hd3 ▸ hn)⟩

/-- C8 (witness): the cache with one 50 m run yields a March record whose
bike and other categories have zero distance and pace exactly 0 (and pace
1/5 s/m for the run category under the guard). -/
theorem c8_pace_zero_guard_witness :
    calculateMonthlyPaceStats [rawRun] =
      Except.ok [⟨"2024-03", 10, 50, 0, 0, 0, 0, 1/5, 0, 0⟩] ∧
    ((¬(⟨"2024-03", 10, 50, 0, 0, 0, 0, 1/5, 0, 0⟩ : MonthlyPaceStats).runWalkHikeDistance > 0 →
        (⟨"2024-03", 10, 50, 0, 0, 0, 0, 1/5, 0, 0⟩ : MonthlyPaceStats).runWalkHikePace = 0) ∧
      (¬(⟨"2024-03", 10, 50, 0, 0, 0, 0, 1/5, 0, 0⟩ : MonthlyPaceStats).bikeDistance > 0 →
        (⟨"2024-03", 10, 50, 0, 0, 0, 0, 1/5, 0, 0⟩ : MonthlyPaceStats).bikePace = 0) ∧
      (¬(⟨"2024-03", 10, 50, 0, 0, 0, 0, 1/5, 0, 0⟩ : MonthlyPaceStats).otherDistance > 0 →
        (⟨"2024-03", 10, 50, 0, 0, 0, 0, 1/5, 0, 0⟩ : MonthlyPaceStats).otherPace = 0)) :=
  ⟨by rfl, c8_pace_zero_guard [rawRun] [⟨"2024-03", 10, 50, 0, 0, 0, 0, 1/5, 0, 0⟩] (by rfl)
    ⟨"2024-03", 10, 50, 0, 0, 0, 0, 1/5, 0, 0⟩ (List.mem_singleton.2 rfl)⟩

/-! ## Date-range zero-fill (C7) -/

/-- Membership in the enumerated day range. -/
theorem mem_rangeDays {s e d : Int} : d ∈ rangeDays s e ↔ s ≤ d ∧ d ≤ e := by
  unfold rangeDays
  rw [List.mem_map]
  constructor
  · rintro ⟨i, hi, hd⟩
    rw [List.mem_range] at hi
    omega
  · rintro ⟨h1, h2⟩
    refine ⟨(d - s).toNat, ?_, ?_⟩
    · rw [List.mem_range]
      omega
    · omega

/-- The day range has `endDay - startDay + 1` entries (0 on an empty range). -/
theorem rangeDays_length (s e : Int) : (rangeDays s e).length = (e + 1 - s).toNat := by
  unfold rangeDays
  rw [List.length_map, List.length_range]

/-- The initialization loop produces exactly the day range as keys. -/
theorem initWeekly_map_fst (s e : Int) :
    (initWeekly s e).map Prod.fst = rangeDays s e := by
  unfold initWeekly
  rw [List.map_map]
  have h : (Prod.fst ∘ fun d : Int => (d, PaceStat.zero)) = id := rfl
  rw [h, List.map_id]

/-- Reading any key of the zero-initialized map yields the zero record. -/
theorem mapGet_initWeekly (s e d : Int) :
    mapGet (initWeekly s e) d PaceStat.zero = PaceStat.zero := by
  unfold initWeekly
  induction rangeDays s e with
  | nil => rfl
  | cons k rest ih =>
    simp only [List.map_cons, mapGet]
    by_cases hk : k = d
    · rw [if_pos hk]
    · rw [if_neg hk]
      exact ih

/-- One activity step never changes the key set: an in-range activity
updates an existing day entry in place, an out-of-range or unparseable one
is skipped. -/
theorem weeklyStep_map_fst (s e : Int) (m : List (Int × PaceStat)) (a : StravaActivity)
    (hm : m.map Prod.fst = rangeDays s e) :
    (weeklyStep s e m a).map Prod.fst = rangeDays s e := by
  unfold weeklyStep
  cases hp : parseRFC3339 a.startDateLocal with
  | none => exact hm
  | some t =>
    dsimp only
    by_cases hr : (dayNumber t = s ∨ s < dayNumber t) ∧ (dayNumber t = e ∨ dayNumber t < e + 1)
    · rw [if_pos hr]
      have hmem : dayNumber t ∈ m.map Prod.fst := by
        rw [hm, mem_rangeDays]
        omega
      rw [mapSet_map_fst_of_mem _ hmem]
      exact hm
    · rw [if_neg hr]
      exact hm

/-- The activity fold preserves the key set. -/
theorem foldl_weeklyStep_map_fst (s e : Int) (acts : List StravaActivity)
    (m : List (Int × PaceStat)) (hm : m.map Prod.fst = rangeDays s e) :
    ((acts.foldl (weeklyStep s e) m).map Prod.fst) = rangeDays s e := by
  induction acts generalizing m with
  | nil => exact hm
  | cons a rest ih =>
    exact ih (weeklyStep s e m a) (weeklyStep_map_fst s e m a hm)

/-- An activity that does not fall on day `d` leaves `d`'s entry unchanged. -/
theorem weeklyStep_mapGet_ne (s e : Int) (m : List (Int × PaceStat)) (a : StravaActivity)
    (d : Int) (hna : ∀ t, parseRFC3339 a.startDateLocal = some t → dayNumber t ≠ d) :
    mapGet (weeklyStep s e m a) d PaceStat.zero = mapGet m d PaceStat.zero := by
  unfold weeklyStep
  cases hp : parseRFC3339 a.startDateLocal with
  | none => rfl
  | some t =>
    dsimp only
    by_cases hr : (dayNumber t = s ∨ s < dayNumber t) ∧ (dayNumber t = e ∨ dayNumber t < e + 1)
    · rw [if_pos hr]
      exact mapGet_mapSet_ne _ _ (Ne.symm (hna t hp))
    · rw [if_neg hr]

/-- Folding activities none of which fall on day `d` leaves `d`'s entry
unchanged. -/
theorem foldl_weeklyStep_mapGet_ne (s e : Int) (acts : List StravaActivity) (d : Int)
    (m : List (Int × PaceStat))
    (hna : ∀ a ∈ acts, ∀ t, parseRFC3339 a.startDateLocal = some t → dayNumber t ≠ d) :
    mapGet (acts.foldl (weeklyStep s e) m) d PaceStat.zero = mapGet m d PaceStat.zero := by
  induction acts generalizing m with
  | nil => rfl
  | cons a rest ih =>
    rw [List.foldl_cons,
      ih (weeklyStep s e m a) (fun a' ha' => hna a' (List.mem_cons_of_mem _ ha')),
      weeklyStep_mapGet_ne s e m a d (hna a (List.mem_cons_self _ _))]

/-- C7: for `startDate ≤ endDate` the date-range aggregate has exactly
`endDate - startDate + 1` day entries, its keys are exactly the calendar
days of the inclusive range in order, and any day in range on which no
cached activity falls (by its local start date) carries the zero record —
all four zone distances zero. -/
theorem c7_weekly_zero_fill (s e : Int) (acts : List StravaActivity) (_hse : s ≤ e) :
    (weeklyPaceStatsCore s e acts).length = (e - s + 1).toNat ∧
    (weeklyPaceStatsCore s e acts).map Prod.fst = rangeDays s e ∧
    (∀ d : Int, s ≤ d → d ≤ e →
      (∀ a ∈ acts, ∀ t, parseRFC3339 a.startDateLocal = some t → dayNumber t ≠ d) →
      mapGet (weeklyPaceStatsCore s e acts) d PaceStat.zero = PaceStat.zero) := by
  have hkeys : (weeklyPaceStatsCore s e acts).map Prod.fst = rangeDays s e :=
    foldl_weeklyStep_map_fst s e acts (initWeekly s e) (initWeekly_map_fst s e)
  refine ⟨?_, hkeys, ?_⟩
  · have hlen : (weeklyPaceStatsCore s e acts).length =
        ((weeklyPaceStatsCore s e acts).map Prod.fst).length := by
      rw [List.length_map]
    rw [hlen, hkeys, rangeDays_length]
    congr 1
    omega
  · intro d _ _ hna
    unfold weeklyPaceStatsCore
    rw [foldl_weeklyStep_mapGet_ne s e acts d (initWeekly s e) hna]
    exact mapGet_initWeekly s e d

/-- C7 (witness): on the three-day range `[0, 2]` with one run on day 1,
the aggregate has 3 entries, keys `[0, 1, 2]`, and day 0 and 2 are
zero-filled. -/
theorem c7_weekly_zero_fill_witness :
    (0 : Int) ≤ 2 ∧
    ((weeklyPaceStatsCore 0 2 [actDay1]).length = ((2 : Int) - 0 + 1).toNat ∧
      (weeklyPaceStatsCore 0 2 [actDay1]).map Prod.fst = rangeDays 0 2 ∧
      (∀ d : Int, 0 ≤ d → d ≤ 2 →
        (∀ a ∈ [actDay1], ∀ t, parseRFC3339 a.startDateLocal = some t → dayNumber t ≠ d) →
        mapGet (weeklyPaceStatsCore 0 2 [actDay1]) d PaceStat.zero = PaceStat.zero)) :=
  ⟨by decide, c7_weekly_zero_fill 0 2 [actDay1] (by decide)⟩

end Strava
